import Mathlib

/-!
Shallow embedding of the trade-engine execution core
(`src/trade_engine/engine/position_sizer.py`, `risk_engine.py`,
`execution_router.py`, `order_journal.py`, `session_state_store.py`)
and proofs of the specified properties.

Modelling conventions:
* Python `float` values are modelled as exact rationals (`ℚ`); `int` as `ℤ`.
* A `datetime` instant is modelled as a rational number of seconds since the
  Unix epoch (UTC); `datetime.date()` becomes the floor of `now / 86400`.
* Python `str.upper` / `str.lower` are modelled character-wise over ASCII.
* The SQLite order journal is modelled as the list of its rows in insertion
  order; `AUTOINCREMENT` row ids are `length + 1` for an append-only table.
* The session-state JSON file is modelled as the parsed document it holds
  (`SessionStore`); the atomic temp-file-then-rename write is modelled as
  replacement of that document, and the JSON round trip is taken as faithful.
* Broker adapters are opaque callables returning either a raised exception
  (`Except.error` with the exception text) or a response value (`PyVal`).
-/

namespace TradeEngine

/-- Model of a Python/JSON value as it appears in broker responses,
broker payloads and session-state documents. Dicts are association lists in
insertion order with unique keys. -/
inductive PyVal where
  | none
  | bool (b : Bool)
  | int (n : ℤ)
  | str (s : String)
  | list (xs : List PyVal)
  | dict (kvs : List (String × PyVal))

/-- Python truthiness (`if value:`) for the modelled values. -/
def pyTruthy : PyVal → Bool
  | .none => false
  | .bool b => b
  | .int n => n != 0
  | .str s => s != ""
  | .list xs => !xs.isEmpty
  | .dict kvs => !kvs.isEmpty

mutual
/-- Python `repr` of a modelled value (escaping inside string literals is not
modelled; no value in scope contains quote characters). -/
def pyRepr : PyVal → String
  | .none => "None"
  | .bool true => "True"
  | .bool false => "False"
  | .int n => toString n
  | .str s => "'" ++ s ++ "'"
  | .list xs => "[" ++ pyReprListItems xs ++ "]"
  | .dict kvs => "\x7b" ++ pyReprDictItems kvs ++ "\x7d"

/-- Comma-separated reprs of list items. -/
def pyReprListItems : List PyVal → String
  | [] => ""
  | [x] => pyRepr x
  | x :: y :: rest => pyRepr x ++ ", " ++ pyReprListItems (y :: rest)

/-- Comma-separated reprs of dict entries. -/
def pyReprDictItems : List (String × PyVal) → String
  | [] => ""
  | [(k, v)] => "'" ++ k ++ "': " ++ pyRepr v
  | (k, v) :: e :: rest => "'" ++ k ++ "': " ++ pyRepr v ++ ", " ++ pyReprDictItems (e :: rest)
end

/-- Python `str(value)` for the modelled values. -/
def pyStr : PyVal → String
  | .str s => s
  | v => pyRepr v

/-- Python `dict.get(key)` over the association-list model. -/
def dictGet (kvs : List (String × PyVal)) (k : String) : Option PyVal :=
  (kvs.find? (fun p => p.1 == k)).map (fun p => p.2)

/-- Python `d[key] = value`: replace in place when the key exists, otherwise
append (dict insertion order). -/
def dictSet (kvs : List (String × PyVal)) (k : String) (v : PyVal) : List (String × PyVal) :=
  if kvs.any (fun p => p.1 == k) then
    kvs.map (fun p => if p.1 == k then (k, v) else p)
  else
    kvs ++ [(k, v)]

/-- Python `str.upper()` (ASCII case mapping, matching every string routed by
this program). -/
def pyUpper (s : String) : String := ⟨s.data.map Char.toUpper⟩

/-- Python `str.lower()` (ASCII case mapping). -/
def pyLower (s : String) : String := ⟨s.data.map Char.toLower⟩

/-- Python `int(q)` on a float: truncation toward zero. -/
def pyTrunc (q : ℚ) : ℤ := if 0 ≤ q then ⌊q⌋ else ⌈q⌉

/-- Python `round(q, 2)` with round-half-to-even, on the exact-rational model
of the float input. -/
def roundHalfEven (q : ℚ) : ℤ :=
  let n := ⌊q⌋
  let frac := q - (n : ℚ)
  if frac < 1 / 2 then n
  else if 1 / 2 < frac then n + 1
  else if n % 2 = 0 then n else n + 1

/-- Python `round(price, 2)` as used by the router for outcome prices. -/
def round2 (q : ℚ) : ℚ := (roundHalfEven (q * 100) : ℚ) / 100

/-- `PositionSizer.calculate_quantity` from
`src/trade_engine/engine/position_sizer.py`. -/
def calculate_quantity (cash price risk_per_trade_pct stop_loss_pct
    max_position_pct capital_base : ℚ) : ℤ :=
  if price ≤ 0 ∨ cash ≤ 0 then 0
  else
    let safe_stop_loss := max stop_loss_pct (1 / 1000)
    let risk_budget := capital_base * max risk_per_trade_pct (1 / 1000)
    let max_position_budget := capital_base * max max_position_pct (1 / 100)
    let qty_by_risk := pyTrunc (risk_budget / (price * safe_stop_loss))
    let qty_by_allocation := pyTrunc (max_position_budget / price)
    let qty_by_cash := pyTrunc (cash / price)
    max 0 (min qty_by_risk (min qty_by_allocation qty_by_cash))

/-- `RiskConfig` from `src/trade_engine/engine/risk_engine.py`, with its
default field values. -/
structure RiskConfig where
  initial_capital : ℚ := 100000
  max_daily_loss_pct : ℚ := 3 / 100
  max_position_pct : ℚ := 10 / 100
  risk_per_trade_pct : ℚ := 1 / 100
  stop_loss_pct : ℚ := 2 / 100
  take_profit_pct : ℚ := 4 / 100
  buy_enabled : Bool := true
  sell_enabled : Bool := true
  kill_switch_enabled : Bool := false
  market_hours_only : Bool := true
  max_orders_per_day : ℤ := 40

/-- The all-defaults `RiskConfig()`. -/
def defaultRiskConfig : RiskConfig := {}

/-- `RiskEngine.check_exit`: long-position stop-loss / take-profit test. -/
def check_exit (cfg : RiskConfig) (entry_price current_price : ℚ) : Bool × String :=
  if entry_price ≤ 0 then (false, "NONE")
  else
    let drawdown := (current_price - entry_price) / entry_price
    if drawdown ≤ -|cfg.stop_loss_pct| then (true, "STOP_LOSS")
    else if drawdown ≥ |cfg.take_profit_pct| then (true, "TAKE_PROFIT")
    else (false, "NONE")

/-- `RiskEngine.check_exit_short`: short-position stop-loss / take-profit
test. -/
def check_exit_short (cfg : RiskConfig) (entry_price current_price : ℚ) : Bool × String :=
  if entry_price ≤ 0 then (false, "NONE")
  else
    let move := (entry_price - current_price) / entry_price
    if move ≤ -|cfg.stop_loss_pct| then (true, "STOP_LOSS")
    else if move ≥ |cfg.take_profit_pct| then (true, "TAKE_PROFIT")
    else (false, "NONE")

/-- `RiskEngine.is_market_open`: convert the UTC instant to IST (fixed
+05:30 = 19800 s offset, the Asia/Kolkata zone), reject weekends
(`weekday() >= 5`, Monday = 0, anchored at 1970-01-01 = Thursday = 3), and
check 09:15:00 ≤ local time ≤ 15:30:00 (33300 s to 55800 s of the day). -/
def is_market_open (now_utc : ℚ) : Bool :=
  let ist := now_utc + 19800
  let ist_day : ℤ := ⌊ist / 86400⌋
  let weekday : ℤ := (ist_day + 3) % 7
  let local_sec : ℚ := ist - (ist_day : ℚ) * 86400
  decide (weekday < 5) && decide ((33300 : ℚ) ≤ local_sec) && decide (local_sec ≤ 55800)

/-- `RiskEngine.pre_order_guard`: composite pre-trade gate. -/
def pre_order_guard (cfg : RiskConfig) (mode : String) (orders_today : ℤ)
    (is_exit : Bool) (now_utc : ℚ) : Bool × String :=
  if cfg.kill_switch_enabled && !is_exit then (false, "kill_switch_enabled")
  else if mode ≠ "live" then (true, "ok")
  else if cfg.market_hours_only && !(is_market_open now_utc) then (false, "outside_market_hours")
  else if !is_exit && decide (orders_today ≥ max 1 cfg.max_orders_per_day) then
    (false, "max_orders_per_day_reached")
  else (true, "ok")

/-- One row of the `orders` table from
`src/trade_engine/engine/order_journal.py`. -/
structure JournalRow where
  id : ℤ
  created_at : ℚ
  updated_at : ℚ
  symbol : String
  side : String
  quantity : ℤ
  price : ℚ
  mode : String
  status : String
  reason : String
  broker_order_id : String
  broker_payload : PyVal
  is_exit : Bool

/-- `OrderJournal.record_order`: insert one row (uppercased symbol, side and
status, lowercased mode, `broker_payload or {}` serialized) and return the
fresh autoincrement id. -/
def record_order (journal : List JournalRow) (now : ℚ) (symbol side : String)
    (quantity : ℤ) (price : ℚ) (mode status reason broker_order_id : String)
    (broker_payload : PyVal) (is_exit : Bool) : ℤ × List JournalRow :=
  let rowId : ℤ := (journal.length : ℤ) + 1
  let payload := if pyTruthy broker_payload then broker_payload else PyVal.dict []
  (rowId,
   journal ++
     [{ id := rowId, created_at := now, updated_at := now,
        symbol := pyUpper symbol, side := pyUpper side, quantity := quantity,
        price := price, mode := pyLower mode, status := pyUpper status,
        reason := reason, broker_order_id := broker_order_id,
        broker_payload := payload, is_exit := is_exit }])

/-- Argument record of the broker's `place_order` capability as invoked by
the router. -/
structure BrokerRequest where
  trading_symbol : String
  quantity : ℤ
  price : ℚ
  exchange : String
  segment : String
  transaction_type : String

/-- A broker adapter: `place_order` either raises (error text) or returns an
opaque response value. -/
def Broker := BrokerRequest → Except String PyVal

/-- Result dictionary returned by `ExecutionRouter.route_order`; absent keys
carry the same defaults `_record_order` supplies via `dict.get`. -/
structure Outcome where
  status : String := "UNKNOWN"
  reason : String := ""
  mode : String
  symbol : String := ""
  side : String := ""
  quantity : ℤ := 0
  price : ℚ := 0
  broker_order_id : String := ""
  broker_response : Option PyVal := Option.none
  orders_today : ℤ := 0
  journal_id : ℤ := 0

/-- Mutable state of an `ExecutionRouter` (mode, broker handle, risk engine
config, journal rows, dedup cache, daily counter and its day). -/
structure RouterState where
  mode : String
  broker : Option Broker
  risk_engine : Option RiskConfig
  journal : List JournalRow
  last_order_at : List (String × ℚ)
  orders_today : ℕ
  orders_day : ℤ

/-- `datetime.utcnow().date()` of a modelled instant. -/
def utc_date (now : ℚ) : ℤ := ⌊now / 86400⌋

/-- `ExecutionRouter.__init__` with no broker and no risk engine attached. -/
def initRouter (mode : String) (now : ℚ) : RouterState :=
  { mode := pyLower (if mode = "" then "paper" else mode),
    broker := Option.none, risk_engine := Option.none, journal := [],
    last_order_at := [], orders_today := 0, orders_day := utc_date now }

/-- `ExecutionRouter.set_mode`: lowercase, and fall back to `"paper"` for
anything outside `{"paper", "live"}` (an empty string is falsy in
`mode or "paper"`). -/
def set_mode (mode : String) : String :=
  let selected := pyLower (if mode = "" then "paper" else mode)
  if selected = "paper" ∨ selected = "live" then selected else "paper"

/-- `ExecutionRouter._normalize_symbol`: the part before the first `"."`
when a dot is present (`symbol.split(".")[0]`). -/
def normalize_symbol (symbol : String) : String :=
  if symbol.data.contains '.' then ⟨symbol.data.takeWhile (fun c => c ≠ '.')⟩
  else symbol

/-- Lookup in the dedup cache (`self._last_order_at.get(key)`). -/
def lookupTime (m : List (String × ℚ)) (k : String) : Option ℚ :=
  (m.find? (fun p => p.1 == k)).map (fun p => p.2)

/-- Store into the dedup cache (`self._last_order_at[key] = now`). -/
def setTime (m : List (String × ℚ)) (k : String) (v : ℚ) : List (String × ℚ) :=
  (k, v) :: m.filter (fun p => p.1 != k)

/-- `ExecutionRouter._is_duplicate`: a hit within the 20-second window
returns `true` without touching the cache; otherwise the key is stamped with
`now` and the call is not a duplicate. -/
def is_duplicate (st : RouterState) (key : String) (now : ℚ) : Bool × RouterState :=
  match lookupTime st.last_order_at key with
  | some prev =>
      if now - prev ≤ 20 then (true, st)
      else (false, { st with last_order_at := setTime st.last_order_at key now })
  | Option.none => (false, { st with last_order_at := setTime st.last_order_at key now })

/-- `ExecutionRouter._reset_order_counter_if_new_day`. -/
def reset_order_counter_if_new_day (st : RouterState) (now : ℚ) : RouterState :=
  if utc_date now ≠ st.orders_day then
    { st with orders_day := utc_date now, orders_today := 0 }
  else st

/-- `ExecutionRouter._apply_risk_guard`: reset the daily counter, consult the
risk engine when present, and build the blocked (`REJECTED`) result when the
guard denies. -/
def apply_risk_guard (st : RouterState) (side_u : String) (is_exit : Bool)
    (now : ℚ) : Option Outcome × RouterState :=
  let st1 := reset_order_counter_if_new_day st now
  match st1.risk_engine with
  | Option.none => (Option.none, st1)
  | some cfg =>
      let g := pre_order_guard cfg st1.mode (st1.orders_today : ℤ) is_exit now
      if g.1 then (Option.none, st1)
      else
        (some { status := "REJECTED", reason := g.2, mode := st1.mode,
                side := side_u, orders_today := (st1.orders_today : ℤ) }, st1)

/-- `ExecutionRouter._record_order` followed by
`result["journal_id"] = ...; return result`: journal the outcome and attach
the fresh journal id. -/
def finish (st : RouterState) (result : Outcome) (is_exit : Bool)
    (broker_payload : PyVal) (now : ℚ) : Outcome × RouterState :=
  let r := record_order st.journal now result.symbol result.side result.quantity
    result.price result.mode result.status result.reason result.broker_order_id
    broker_payload is_exit
  ({ result with journal_id := r.1 }, { st with journal := r.2 })

/-- Truthy `response.get(key)` (`value = response.get(key); if value:`). -/
def get_truthy (kvs : List (String × PyVal)) (k : String) : Option PyVal :=
  match dictGet kvs k with
  | some v => if pyTruthy v then some v else Option.none
  | Option.none => Option.none

/-- Key loop of `ExecutionRouter._extract_broker_order_id`: the first listed
key with a truthy value, as `str(value)`. -/
def first_key_str (kvs : List (String × PyVal)) : List String → Option String
  | [] => Option.none
  | k :: ks =>
      match get_truthy kvs k with
      | some v => some (pyStr v)
      | Option.none => first_key_str kvs ks

mutual
/-- `ExecutionRouter._extract_broker_order_id`: recursive search for the well
known id keys through arbitrarily nested dict/list responses. -/
def extract_broker_order_id : PyVal → String
  | .dict kvs =>
      match first_key_str kvs ["groww_order_id", "order_id", "id"] with
      | some s => s
      | Option.none => extract_id_values kvs
  | .list xs => extract_id_items xs
  | _ => ""

/-- Value loop (`for value in response.values(): ...`) of the id search. -/
def extract_id_values : List (String × PyVal) → String
  | [] => ""
  | (_, v) :: rest =>
      let nested := extract_broker_order_id v
      if nested ≠ "" then nested else extract_id_values rest

/-- Item loop (`for item in response: ...`) of the id search. -/
def extract_id_items : List PyVal → String
  | [] => ""
  | v :: rest =>
      let nested := extract_broker_order_id v
      if nested ≠ "" then nested else extract_id_items rest
end

/-- Dedup-cache key `f"{symbol}:{side}:{'EXIT' if is_exit else 'ENTRY'}"`
(`side` already uppercased by the caller). -/
def dedupe_key (symbol side_u : String) (is_exit : Bool) : String :=
  symbol ++ ":" ++ side_u ++ ":" ++ (if is_exit then "EXIT" else "ENTRY")

/-- Broker payload stored for a SENT order:
`response if isinstance(response, dict) else {}`. -/
def payload_of (response : PyVal) : PyVal :=
  match response with
  | .dict kvs => .dict kvs
  | _ => .dict []

/-- `ExecutionRouter.route_order` from
`src/trade_engine/engine/execution_router.py`: dedup check, risk guard,
then the paper / live / unknown-mode dispatch; every branch journals its
outcome via `finish`. -/
def route_order (st : RouterState) (symbol side : String) (quantity : ℤ)
    (price : ℚ) (exchange segment : String) (is_exit : Bool) (now : ℚ) :
    Outcome × RouterState :=
  let side_u := pyUpper side
  let dup := is_duplicate st (dedupe_key symbol side_u is_exit) now
  if dup.1 then
    finish dup.2
      { status := "SKIPPED", reason := "duplicate_window", mode := dup.2.mode,
        symbol := symbol, side := side_u, quantity := quantity,
        price := round2 price }
      is_exit PyVal.none now
  else
    let guard := apply_risk_guard dup.2 side_u is_exit now
    match guard.1 with
    | some blocked =>
        finish guard.2
          { blocked with
            symbol := symbol
            quantity := quantity
            price := round2 price }
          is_exit PyVal.none now
    | Option.none =>
        let st2 := guard.2
        if st2.mode = "paper" then
          let st3 := { st2 with orders_today := st2.orders_today + 1 }
          finish st3
            { status := "FILLED", mode := "paper", symbol := symbol,
              side := side_u, quantity := quantity, price := round2 price,
              broker_order_id := "" }
            is_exit PyVal.none now
        else if st2.mode = "live" then
          match st2.broker with
          | Option.none =>
              finish st2
                { status := "REJECTED", reason := "broker_not_configured",
                  mode := "live", symbol := symbol, side := side_u,
                  quantity := quantity, price := round2 price }
                is_exit PyVal.none now
          | some broker =>
              match broker
                { trading_symbol := normalize_symbol symbol,
                  quantity := quantity, price := price, exchange := exchange,
                  segment := segment, transaction_type := side_u } with
              | .error exc =>
                  finish st2
                    { status := "REJECTED", reason := "broker_error:" ++ exc,
                      mode := "live", symbol := symbol, side := side_u,
                      quantity := quantity, price := round2 price }
                    is_exit PyVal.none now
              | .ok response =>
                  let st3 := { st2 with orders_today := st2.orders_today + 1 }
                  finish st3
                    { status := "SENT", mode := "live", symbol := symbol,
                      side := side_u, quantity := quantity,
                      price := round2 price,
                      broker_order_id := extract_broker_order_id response,
                      broker_response := some response,
                      orders_today := ((st2.orders_today + 1 : ℕ) : ℤ) }
                    is_exit (payload_of response) now
        else
          finish st2
            { status := "REJECTED", reason := "unknown_mode:" ++ st2.mode,
              mode := st2.mode, symbol := symbol, side := side_u,
              quantity := quantity, price := round2 price }
            is_exit PyVal.none now

/-- State of the session-state JSON file from
`src/trade_engine/engine/session_state_store.py`: the parsed document the
file holds, or `none` when the file is absent. -/
structure SessionStore where
  content : Option (List (String × PyVal))

/-- `SessionStateStore.save_state`: copy the dict, stamp `saved_at`, and
atomically replace the file's document; returns success. -/
def save_state (_store : SessionStore) (state : List (String × PyVal))
    (saved_at : PyVal) : Bool × SessionStore :=
  (true, { content := some (dictSet state "saved_at" saved_at) })

/-- `SessionStateStore.load_state`: the stored document, or `none` when the
file is missing. -/
def load_state (store : SessionStore) : Option (List (String × PyVal)) :=
  store.content

/-! Helper lemmas about which parts of the router state each internal step
can touch, and about the shape of the outcomes the risk guard can build. -/

lemma is_duplicate_snd (st : RouterState) (k : String) (n : ℚ) :
    (is_duplicate st k n).2.mode = st.mode ∧
    (is_duplicate st k n).2.broker = st.broker ∧
    (is_duplicate st k n).2.risk_engine = st.risk_engine ∧
    (is_duplicate st k n).2.journal = st.journal ∧
    (is_duplicate st k n).2.orders_today = st.orders_today ∧
    (is_duplicate st k n).2.orders_day = st.orders_day := by
  unfold is_duplicate
  split
  · split
    · exact ⟨rfl, rfl, rfl, rfl, rfl, rfl⟩
    · exact ⟨rfl, rfl, rfl, rfl, rfl, rfl⟩
  · exact ⟨rfl, rfl, rfl, rfl, rfl, rfl⟩

lemma reset_counter_snd (st : RouterState) (n : ℚ) :
    (reset_order_counter_if_new_day st n).mode = st.mode ∧
    (reset_order_counter_if_new_day st n).broker = st.broker ∧
    (reset_order_counter_if_new_day st n).risk_engine = st.risk_engine ∧
    (reset_order_counter_if_new_day st n).journal = st.journal ∧
    (reset_order_counter_if_new_day st n).last_order_at = st.last_order_at := by
  unfold reset_order_counter_if_new_day
  split
  · exact ⟨rfl, rfl, rfl, rfl, rfl⟩
  · exact ⟨rfl, rfl, rfl, rfl, rfl⟩

lemma reset_counter_same_day (st : RouterState) (n : ℚ)
    (h : st.orders_day = utc_date n) :
    reset_order_counter_if_new_day st n = st := by
  unfold reset_order_counter_if_new_day
  rw [if_neg]
  simp [h]

lemma apply_risk_guard_snd (st : RouterState) (s : String) (e : Bool) (n : ℚ) :
    (apply_risk_guard st s e n).2 = reset_order_counter_if_new_day st n := by
  simp only [apply_risk_guard]
  cases h : (reset_order_counter_if_new_day st n).risk_engine with
  | none => rfl
  | some cfg =>
      dsimp only
      by_cases hg : (pre_order_guard cfg (reset_order_counter_if_new_day st n).mode
          ((reset_order_counter_if_new_day st n).orders_today : ℤ) e n).1
      · rw [if_pos hg]
      · rw [if_neg hg]

lemma apply_risk_guard_blocked (st : RouterState) (s : String) (e : Bool) (n : ℚ)
    (b : Outcome) (h : (apply_risk_guard st s e n).1 = some b) :
    b.status = "REJECTED" ∧
    ∃ cfg, (reset_order_counter_if_new_day st n).risk_engine = some cfg ∧
      b.reason = (pre_order_guard cfg (reset_order_counter_if_new_day st n).mode
        ((reset_order_counter_if_new_day st n).orders_today : ℤ) e n).2 := by
  simp only [apply_risk_guard] at h
  cases hcfg : (reset_order_counter_if_new_day st n).risk_engine with
  | none =>
      rw [hcfg] at h
      exact absurd h (by simp)
  | some cfg =>
      rw [hcfg] at h
      dsimp only at h
      by_cases hg : (pre_order_guard cfg (reset_order_counter_if_new_day st n).mode
          ((reset_order_counter_if_new_day st n).orders_today : ℤ) e n).1
      · rw [if_pos hg] at h
        exact absurd h (by simp)
      · rw [if_neg hg] at h
        have hb := (Option.some.injEq _ _).mp h
        refine ⟨?_, cfg, rfl, ?_⟩ <;> rw [← hb]

lemma pre_order_guard_reason_mem (cfg : RiskConfig) (mode : String)
    (orders_today : ℤ) (e : Bool) (n : ℚ) :
    (pre_order_guard cfg mode orders_today e n).2 ∈
      (["kill_switch_enabled", "ok", "outside_market_hours",
        "max_orders_per_day_reached"] : List String) := by
  unfold pre_order_guard
  split
  · simp
  · split
    · simp
    · split
      · simp
      · split
        · simp
        · simp

lemma finish_fst_status (st : RouterState) (r : Outcome) (e : Bool) (p : PyVal)
    (n : ℚ) : (finish st r e p n).1.status = r.status := rfl

lemma finish_snd (st : RouterState) (r : Outcome) (e : Bool) (p : PyVal) (n : ℚ) :
    (finish st r e p n).2.mode = st.mode ∧
    (finish st r e p n).2.broker = st.broker ∧
    (finish st r e p n).2.risk_engine = st.risk_engine ∧
    (finish st r e p n).2.last_order_at = st.last_order_at ∧
    (finish st r e p n).2.orders_today = st.orders_today ∧
    (finish st r e p n).2.orders_day = st.orders_day := by
  exact ⟨rfl, rfl, rfl, rfl, rfl, rfl⟩

lemma finish_spec (st : RouterState) (r : Outcome) (e : Bool) (p : PyVal) (n : ℚ)
    (hstat : pyUpper r.status = r.status) :
    ∃ row, (finish st r e p n).2.journal = st.journal ++ [row] ∧
      row.status = (finish st r e p n).1.status := by
  refine ⟨_, rfl, ?_⟩
  exact hstat

lemma is_duplicate_of_true (st : RouterState) (k : String) (n : ℚ)
    (h : (is_duplicate st k n).1 = true) :
    is_duplicate st k n = (true, st) := by
  unfold is_duplicate at h ⊢
  split at h
  · split at h
    · split
      · rfl
      · simp_all
    · simp at h
  · simp at h

lemma is_duplicate_of_false (st : RouterState) (k : String) (n : ℚ)
    (h : (is_duplicate st k n).1 = false) :
    is_duplicate st k n
      = (false, { st with last_order_at := setTime st.last_order_at k n }) := by
  unfold is_duplicate at h ⊢
  split at h
  · split at h
    · simp at h
    · split
      · simp_all
      · rfl
  · rfl

lemma lookupTime_setTime_self (m : List (String × ℚ)) (k : String) (v : ℚ) :
    lookupTime (setTime m k v) k = some v := by
  simp [lookupTime, setTime]

lemma guard_state_facts (st : RouterState) (k side_u : String) (e : Bool) (n : ℚ) :
    (apply_risk_guard (is_duplicate st k n).2 side_u e n).2.journal = st.journal ∧
    (apply_risk_guard (is_duplicate st k n).2 side_u e n).2.mode = st.mode ∧
    (apply_risk_guard (is_duplicate st k n).2 side_u e n).2.broker = st.broker ∧
    (apply_risk_guard (is_duplicate st k n).2 side_u e n).2.last_order_at
      = (is_duplicate st k n).2.last_order_at := by
  rw [apply_risk_guard_snd]
  obtain ⟨m1, b1, _, j1, l1⟩ := reset_counter_snd (is_duplicate st k n).2 n
  obtain ⟨m0, b0, _, j0, _, _⟩ := is_duplicate_snd st k n
  exact ⟨j1.trans j0, m1.trans m0, b1.trans b0, l1⟩

lemma apply_risk_guard_allows (st : RouterState) (s : String) (e : Bool) (n : ℚ)
    (hday : st.orders_day = utc_date n)
    (h : ∀ cfg, st.risk_engine = some cfg →
      (pre_order_guard cfg st.mode (st.orders_today : ℤ) e n).1 = true) :
    apply_risk_guard st s e n = (Option.none, st) := by
  have hr : reset_order_counter_if_new_day st n = st := reset_counter_same_day st n hday
  simp only [apply_risk_guard, hr]
  cases hc : st.risk_engine with
  | none => rfl
  | some cfg =>
      dsimp only
      rw [if_pos (h cfg hc)]

/-- Reduction of `route_order` on a dedup hit: the state is journaled but
otherwise untouched, and the outcome is the SKIPPED result. -/
lemma route_order_dup (st : RouterState) (symbol side : String) (quantity : ℤ)
    (price : ℚ) (exchange segment : String) (is_exit : Bool) (now : ℚ)
    (h : (is_duplicate st (dedupe_key symbol (pyUpper side) is_exit) now).1 = true) :
    route_order st symbol side quantity price exchange segment is_exit now
      = finish st
          { status := "SKIPPED", reason := "duplicate_window", mode := st.mode,
            symbol := symbol, side := pyUpper side, quantity := quantity,
            price := round2 price }
          is_exit PyVal.none now := by
  unfold route_order
  dsimp only
  rw [is_duplicate_of_true st _ now h]
  rfl

/-- Every path through `route_order` ends in `finish` on a state whose
journal (and dedup cache) the path so far has not touched, with one of the
six outcome shapes the code can build. -/
lemma route_order_shape (st : RouterState) (symbol side : String) (quantity : ℤ)
    (price : ℚ) (exchange segment : String) (is_exit : Bool) (now : ℚ) :
    ∃ (st' : RouterState) (r : Outcome) (p : PyVal),
      route_order st symbol side quantity price exchange segment is_exit now
        = finish st' r is_exit p now ∧
      st'.journal = st.journal ∧
      st'.last_order_at
        = (is_duplicate st (dedupe_key symbol (pyUpper side) is_exit) now).2.last_order_at ∧
      ((r.status = "SKIPPED" ∧ r.reason = "duplicate_window" ∧
          (is_duplicate st (dedupe_key symbol (pyUpper side) is_exit) now).1 = true) ∨
       (r.status = "REJECTED" ∧ r.reason ∈ (["kill_switch_enabled", "ok",
          "outside_market_hours", "max_orders_per_day_reached"] : List String)) ∨
       (r.status = "FILLED" ∧ r.reason = "") ∨
       (r.status = "SENT" ∧ r.reason = "") ∨
       (r.status = "REJECTED" ∧ r.reason = "broker_not_configured") ∨
       (∃ exc, r.status = "REJECTED" ∧ r.reason = "broker_error:" ++ exc) ∨
       (r.status = "REJECTED" ∧ r.reason = "unknown_mode:" ++ st.mode ∧
          st.mode ≠ "paper" ∧ st.mode ≠ "live")) := by
  unfold route_order
  dsimp only
  by_cases h1 : (is_duplicate st (dedupe_key symbol (pyUpper side) is_exit) now).1
  · rw [is_duplicate_of_true st _ now h1]
    dsimp only
    exact ⟨_, _, _, rfl, rfl, rfl, Or.inl ⟨rfl, rfl, rfl⟩⟩
  · rw [if_neg h1]
    obtain ⟨hj, hm, hb, hl⟩ :=
      guard_state_facts st (dedupe_key symbol (pyUpper side) is_exit) (pyUpper side) is_exit now
    cases hg : (apply_risk_guard
        (is_duplicate st (dedupe_key symbol (pyUpper side) is_exit) now).2
        (pyUpper side) is_exit now).1 with
    | some blocked =>
        dsimp only
        obtain ⟨hbs, cfg, hcfg, hbr⟩ := apply_risk_guard_blocked _ _ _ _ _ hg
        refine ⟨_, _, _, rfl, hj, hl, Or.inr (Or.inl ⟨hbs, ?_⟩)⟩
        rw [hbr, ← apply_risk_guard_snd
          (is_duplicate st (dedupe_key symbol (pyUpper side) is_exit) now).2
          (pyUpper side) is_exit now]
        exact pre_order_guard_reason_mem cfg _ _ is_exit now
    | none =>
        dsimp only
        by_cases hp : (apply_risk_guard
            (is_duplicate st (dedupe_key symbol (pyUpper side) is_exit) now).2
            (pyUpper side) is_exit now).2.mode = "paper"
        · rw [if_pos hp]
          exact ⟨_, _, _, rfl, hj, hl, Or.inr (Or.inr (Or.inl ⟨rfl, rfl⟩))⟩
        · rw [if_neg hp]
          by_cases hlv : (apply_risk_guard
              (is_duplicate st (dedupe_key symbol (pyUpper side) is_exit) now).2
              (pyUpper side) is_exit now).2.mode = "live"
          · rw [if_pos hlv]
            cases hbk : (apply_risk_guard
                (is_duplicate st (dedupe_key symbol (pyUpper side) is_exit) now).2
                (pyUpper side) is_exit now).2.broker with
            | none =>
                dsimp only
                exact ⟨_, _, _, rfl, hj, hl,
                  Or.inr (Or.inr (Or.inr (Or.inr (Or.inl ⟨rfl, rfl⟩))))⟩
            | some broker =>
                dsimp only
                cases hresp : broker
                    { trading_symbol := normalize_symbol symbol,
                      quantity := quantity, price := price, exchange := exchange,
                      segment := segment, transaction_type := pyUpper side } with
                | error exc =>
                    dsimp only
                    exact ⟨_, _, _, rfl, hj, hl,
                      Or.inr (Or.inr (Or.inr (Or.inr (Or.inr (Or.inl
                        ⟨exc, rfl, rfl⟩)))))⟩
                | ok response =>
                    dsimp only
                    exact ⟨_, _, _, rfl, hj, hl,
                      Or.inr (Or.inr (Or.inr (Or.inl ⟨rfl, rfl⟩)))⟩
          · rw [if_neg hlv]
            refine ⟨_, _, _, rfl, hj, hl,
              Or.inr (Or.inr (Or.inr (Or.inr (Or.inr (Or.inr
                ⟨rfl, ?_, ?_, ?_⟩)))))⟩
            · rw [hm]
            · rw [hm] at hp
              exact hp
            · rw [hm] at hlv
              exact hlv

lemma finish_fst_reason (st : RouterState) (r : Outcome) (e : Bool) (p : PyVal)
    (n : ℚ) : (finish st r e p n).1.reason = r.reason := rfl

lemma unknown_mode_head (t : String) :
    ("unknown_mode:" ++ t).data.head? = some 'u' := by
  rw [String.data_append]
  rfl

lemma broker_error_head (t : String) :
    ("broker_error:" ++ t).data.head? = some 'b' := by
  rw [String.data_append]
  rfl

lemma ne_unknown_mode_of_head (s t : String) (h : s.data.head? ≠ some 'u') :
    s ≠ "unknown_mode:" ++ t := by
  intro he
  exact h (he ▸ unknown_mode_head t)

/-- C1: for every call to `ExecutionRouter.route_order`, whatever the
outcome, exactly one new row is appended to the order journal, and that
row's status equals the status of the returned outcome. -/
theorem route_order_single_journal_row (st : RouterState) (symbol side : String)
    (quantity : ℤ) (price : ℚ) (exchange segment : String) (is_exit : Bool)
    (now : ℚ) :
    ∃ row : JournalRow,
      (route_order st symbol side quantity price exchange segment is_exit now).2.journal
        = st.journal ++ [row] ∧
      row.status
        = (route_order st symbol side quantity price exchange segment is_exit now).1.status := by
  obtain ⟨st', r, p, heq, hj, _, hcases⟩ :=
    route_order_shape st symbol side quantity price exchange segment is_exit now
  have hstat : pyUpper r.status = r.status := by
    rcases hcases with ⟨h, _, _⟩ | ⟨h, _⟩ | ⟨h, _⟩ | ⟨h, _⟩ | ⟨h, _⟩ |
      ⟨exc, h, _⟩ | ⟨h, _, _, _⟩ <;> rw [h] <;> decide
  obtain ⟨row, hrow, hs⟩ := finish_spec st' r is_exit p now hstat
  refine ⟨row, ?_, ?_⟩
  · rw [heq, hrow, hj]
  · rw [heq]
    exact hs

/-- C10: `set_mode` always lands in `{"paper", "live"}` (lowercasing its
argument and falling back to `"paper"`), so the `unknown_mode` REJECTED
branch of `route_order` can never fire for a router whose mode was last set
through `set_mode`. -/
theorem set_mode_unknown_branch_unreachable (m : String) (st : RouterState)
    (symbol side : String) (quantity : ℤ) (price : ℚ) (exchange segment : String)
    (is_exit : Bool) (now : ℚ) :
    (set_mode m = "paper" ∨ set_mode m = "live") ∧
    (route_order { st with mode := set_mode m } symbol side quantity price
        exchange segment is_exit now).1.reason ≠ "unknown_mode:" ++ set_mode m := by
  have hmode : set_mode m = "paper" ∨ set_mode m = "live" := by
    unfold set_mode
    dsimp only
    by_cases h : pyLower (if m = "" then "paper" else m) = "paper" ∨
        pyLower (if m = "" then "paper" else m) = "live"
    · rw [if_pos h]
      exact h
    · rw [if_neg h]
      exact Or.inl rfl
  refine ⟨hmode, ?_⟩
  obtain ⟨st', r, p, heq, _, _, hcases⟩ :=
    route_order_shape { st with mode := set_mode m } symbol side quantity price
      exchange segment is_exit now
  rw [heq, finish_fst_reason]
  rcases hcases with ⟨_, h, _⟩ | ⟨_, h⟩ | ⟨_, h⟩ | ⟨_, h⟩ | ⟨_, h⟩ |
    ⟨exc, _, h⟩ | ⟨_, _, hp, hl⟩
  · rw [h]
    exact ne_unknown_mode_of_head _ _ (by decide)
  · simp only [List.mem_cons, List.not_mem_nil, or_false] at h
    rcases h with h | h | h | h
    all_goals rw [h]
    all_goals exact ne_unknown_mode_of_head _ _ (by decide)
  · rw [h]
    exact ne_unknown_mode_of_head _ _ (by decide)
  · rw [h]
    exact ne_unknown_mode_of_head _ _ (by decide)
  · rw [h]
    exact ne_unknown_mode_of_head _ _ (by decide)
  · rw [h]
    exact ne_unknown_mode_of_head _ _ (by rw [broker_error_head]; decide)
  · cases hmode with
    | inl hm => exact absurd hm hp
    | inr hm => exact absurd hm hl

lemma route_order_not_skipped (st : RouterState) (symbol side : String)
    (quantity : ℤ) (price : ℚ) (exchange segment : String) (is_exit : Bool)
    (now : ℚ)
    (h : (is_duplicate st (dedupe_key symbol (pyUpper side) is_exit) now).1 = false) :
    (route_order st symbol side quantity price exchange segment is_exit now).1.status
      ≠ "SKIPPED" := by
  obtain ⟨st', r, p, heq, _, _, hcases⟩ :=
    route_order_shape st symbol side quantity price exchange segment is_exit now
  rw [heq, finish_fst_status]
  rcases hcases with ⟨_, _, hdup⟩ | ⟨hs, _⟩ | ⟨hs, _⟩ | ⟨hs, _⟩ | ⟨hs, _⟩ |
    ⟨exc, hs, _⟩ | ⟨hs, _, _, _⟩
  · rw [h] at hdup
    exact absurd hdup (by decide)
  all_goals rw [hs]
  all_goals decide

lemma route_order_last_order_at (st : RouterState) (symbol side : String)
    (quantity : ℤ) (price : ℚ) (exchange segment : String) (is_exit : Bool)
    (now : ℚ) :
    (route_order st symbol side quantity price exchange segment is_exit now).2.last_order_at
      = (is_duplicate st (dedupe_key symbol (pyUpper side) is_exit) now).2.last_order_at := by
  obtain ⟨st', r, p, heq, _, hl, _⟩ :=
    route_order_shape st symbol side quantity price exchange segment is_exit now
  rw [heq]
  exact hl

/-- C5: a second `route_order` call with the identical
(symbol, side, exit-flag) triple within the 20-second window is SKIPPED with
reason `duplicate_window` and leaves the daily counter untouched, and a
third call after the window (measured from the first call) has elapsed is
not deduplicated. -/
theorem dedup_window_behavior (st : RouterState) (symbol side : String)
    (q1 q2 q3 : ℤ) (p1 p2 p3 : ℚ) (exchange segment : String) (is_exit : Bool)
    (t0 t1 t2 : ℚ)
    (hmiss : lookupTime st.last_order_at (dedupe_key symbol (pyUpper side) is_exit)
      = Option.none)
    (h01 : t1 - t0 ≤ 20) (h02 : ¬ (t2 - t0 ≤ 20)) :
    (route_order (route_order st symbol side q1 p1 exchange segment is_exit t0).2
        symbol side q2 p2 exchange segment is_exit t1).1.status = "SKIPPED" ∧
    (route_order (route_order st symbol side q1 p1 exchange segment is_exit t0).2
        symbol side q2 p2 exchange segment is_exit t1).1.reason = "duplicate_window" ∧
    (route_order (route_order st symbol side q1 p1 exchange segment is_exit t0).2
        symbol side q2 p2 exchange segment is_exit t1).2.orders_today
      = (route_order st symbol side q1 p1 exchange segment is_exit t0).2.orders_today ∧
    (is_duplicate
        (route_order (route_order st symbol side q1 p1 exchange segment is_exit t0).2
          symbol side q2 p2 exchange segment is_exit t1).2
        (dedupe_key symbol (pyUpper side) is_exit) t2).1 = false ∧
    (route_order
        (route_order (route_order st symbol side q1 p1 exchange segment is_exit t0).2
          symbol side q2 p2 exchange segment is_exit t1).2
        symbol side q3 p3 exchange segment is_exit t2).1.status ≠ "SKIPPED" := by
  have hr1last : (route_order st symbol side q1 p1 exchange segment is_exit t0).2.last_order_at
      = setTime st.last_order_at (dedupe_key symbol (pyUpper side) is_exit) t0 := by
    rw [route_order_last_order_at]
    have hd1 : is_duplicate st (dedupe_key symbol (pyUpper side) is_exit) t0
        = (false, { st with last_order_at := setTime st.last_order_at (dedupe_key symbol (pyUpper side) is_exit) t0 }) := by
      unfold is_duplicate
      rw [hmiss]
    rw [hd1]
  have hd2 : is_duplicate (route_order st symbol side q1 p1 exchange segment is_exit t0).2
      (dedupe_key symbol (pyUpper side) is_exit) t1
      = (true, (route_order st symbol side q1 p1 exchange segment is_exit t0).2) := by
    unfold is_duplicate
    rw [hr1last, lookupTime_setTime_self]
    dsimp only
    rw [if_pos h01]
  have hr2 : route_order (route_order st symbol side q1 p1 exchange segment is_exit t0).2
      symbol side q2 p2 exchange segment is_exit t1
      = finish (route_order st symbol side q1 p1 exchange segment is_exit t0).2
          { status := "SKIPPED", reason := "duplicate_window",
            mode := (route_order st symbol side q1 p1 exchange segment is_exit t0).2.mode,
            symbol := symbol, side := pyUpper side, quantity := q2,
            price := round2 p2 }
          is_exit PyVal.none t1 :=
    route_order_dup _ symbol side q2 p2 exchange segment is_exit t1 (by rw [hd2])
  have hr2last : (route_order (route_order st symbol side q1 p1 exchange segment is_exit t0).2
      symbol side q2 p2 exchange segment is_exit t1).2.last_order_at
      = setTime st.last_order_at (dedupe_key symbol (pyUpper side) is_exit) t0 := by
    rw [hr2]
    exact hr1last
  have hd3 : (is_duplicate
      (route_order (route_order st symbol side q1 p1 exchange segment is_exit t0).2
        symbol side q2 p2 exchange segment is_exit t1).2
      (dedupe_key symbol (pyUpper side) is_exit) t2).1 = false := by
    unfold is_duplicate
    rw [hr2last, lookupTime_setTime_self]
    dsimp only
    rw [if_neg h02]
  refine ⟨by rw [hr2]; rfl, by rw [hr2]; rfl, by rw [hr2]; rfl, hd3, ?_⟩
  exact route_order_not_skipped _ symbol side q3 p3 exchange segment is_exit t2 hd3

lemma route_order_live_no_broker (st : RouterState) (symbol side : String)
    (quantity : ℤ) (price : ℚ) (exchange segment : String) (is_exit : Bool)
    (now : ℚ) (hmode : st.mode = "live") (hday : st.orders_day = utc_date now)
    (hdup : (is_duplicate st (dedupe_key symbol (pyUpper side) is_exit) now).1 = false)
    (hguard : ∀ cfg, st.risk_engine = some cfg →
      (pre_order_guard cfg st.mode (st.orders_today : ℤ) is_exit now).1 = true)
    (hb : st.broker = Option.none) :
    route_order st symbol side quantity price exchange segment is_exit now
      = finish { st with last_order_at := setTime st.last_order_at (dedupe_key symbol (pyUpper side) is_exit) now }
          { status := "REJECTED", reason := "broker_not_configured",
            mode := "live", symbol := symbol, side := pyUpper side,
            quantity := quantity, price := round2 price }
          is_exit PyVal.none now := by
  unfold route_order
  dsimp only
  rw [is_duplicate_of_false st _ now hdup]
  dsimp only
  rw [if_neg (fun hcon => Bool.false_ne_true hcon)]
  rw [apply_risk_guard_allows { st with last_order_at := setTime st.last_order_at (dedupe_key symbol (pyUpper side) is_exit) now } (pyUpper side) is_exit now hday hguard]
  dsimp only
  rw [hmode]
  rw [if_neg (by decide : ¬ ("live" = "paper"))]
  rw [if_pos rfl]
  rw [hb]

lemma route_order_live_broker_error (st : RouterState) (symbol side : String)
    (quantity : ℤ) (price : ℚ) (exchange segment : String) (is_exit : Bool)
    (now : ℚ) (b : Broker) (exc : String)
    (hmode : st.mode = "live") (hday : st.orders_day = utc_date now)
    (hdup : (is_duplicate st (dedupe_key symbol (pyUpper side) is_exit) now).1 = false)
    (hguard : ∀ cfg, st.risk_engine = some cfg →
      (pre_order_guard cfg st.mode (st.orders_today : ℤ) is_exit now).1 = true)
    (hb : st.broker = some b)
    (hresp : b { trading_symbol := normalize_symbol symbol, quantity := quantity, price := price, exchange := exchange, segment := segment, transaction_type := pyUpper side } = Except.error exc) :
    route_order st symbol side quantity price exchange segment is_exit now
      = finish { st with last_order_at := setTime st.last_order_at (dedupe_key symbol (pyUpper side) is_exit) now }
          { status := "REJECTED", reason := "broker_error:" ++ exc,
            mode := "live", symbol := symbol, side := pyUpper side,
            quantity := quantity, price := round2 price }
          is_exit PyVal.none now := by
  unfold route_order
  dsimp only
  rw [is_duplicate_of_false st _ now hdup]
  dsimp only
  rw [if_neg (fun hcon => Bool.false_ne_true hcon)]
  rw [apply_risk_guard_allows { st with last_order_at := setTime st.last_order_at (dedupe_key symbol (pyUpper side) is_exit) now } (pyUpper side) is_exit now hday hguard]
  dsimp only
  rw [hmode]
  rw [if_neg (by decide : ¬ ("live" = "paper"))]
  rw [if_pos rfl]
  rw [hb]
  dsimp only
  rw [hresp]

lemma route_order_live_broker_ok (st : RouterState) (symbol side : String)
    (quantity : ℤ) (price : ℚ) (exchange segment : String) (is_exit : Bool)
    (now : ℚ) (b : Broker) (response : PyVal)
    (hmode : st.mode = "live") (hday : st.orders_day = utc_date now)
    (hdup : (is_duplicate st (dedupe_key symbol (pyUpper side) is_exit) now).1 = false)
    (hguard : ∀ cfg, st.risk_engine = some cfg →
      (pre_order_guard cfg st.mode (st.orders_today : ℤ) is_exit now).1 = true)
    (hb : st.broker = some b)
    (hresp : b { trading_symbol := normalize_symbol symbol, quantity := quantity, price := price, exchange := exchange, segment := segment, transaction_type := pyUpper side } = Except.ok response) :
    route_order st symbol side quantity price exchange segment is_exit now
      = finish { st with last_order_at := setTime st.last_order_at (dedupe_key symbol (pyUpper side) is_exit) now, orders_today := st.orders_today + 1 }
          { status := "SENT", mode := "live", symbol := symbol,
            side := pyUpper side, quantity := quantity, price := round2 price,
            broker_order_id := extract_broker_order_id response,
            broker_response := some response,
            orders_today := ((st.orders_today + 1 : ℕ) : ℤ) }
          is_exit (payload_of response) now := by
  unfold route_order
  dsimp only
  rw [is_duplicate_of_false st _ now hdup]
  dsimp only
  rw [if_neg (fun hcon => Bool.false_ne_true hcon)]
  rw [apply_risk_guard_allows { st with last_order_at := setTime st.last_order_at (dedupe_key symbol (pyUpper side) is_exit) now } (pyUpper side) is_exit now hday hguard]
  dsimp only
  rw [hmode]
  rw [if_neg (by decide : ¬ ("live" = "paper"))]
  rw [if_pos rfl]
  rw [hb]
  dsimp only
  rw [hresp]

/-- C6: in live mode (dedup miss, risk guard passing) `route_order` never
propagates a broker failure: no broker gives REJECTED
`broker_not_configured`, a raising broker gives REJECTED with the wrapped
error text, and a successful broker gives SENT and increments the daily
counter (which the two rejections leave untouched). -/
theorem live_mode_broker_boundary (st : RouterState) (symbol side : String)
    (quantity : ℤ) (price : ℚ) (exchange segment : String) (is_exit : Bool)
    (now : ℚ)
    (hmode : st.mode = "live") (hday : st.orders_day = utc_date now)
    (hdup : (is_duplicate st (dedupe_key symbol (pyUpper side) is_exit) now).1 = false)
    (hguard : ∀ cfg, st.risk_engine = some cfg →
      (pre_order_guard cfg st.mode (st.orders_today : ℤ) is_exit now).1 = true) :
    (st.broker = Option.none →
      (route_order st symbol side quantity price exchange segment is_exit now).1.status
        = "REJECTED" ∧
      (route_order st symbol side quantity price exchange segment is_exit now).1.reason
        = "broker_not_configured" ∧
      (route_order st symbol side quantity price exchange segment is_exit now).2.orders_today
        = st.orders_today) ∧
    (∀ (b : Broker) (exc : String), st.broker = some b →
      b { trading_symbol := normalize_symbol symbol, quantity := quantity, price := price, exchange := exchange, segment := segment, transaction_type := pyUpper side } = Except.error exc →
      (route_order st symbol side quantity price exchange segment is_exit now).1.status
        = "REJECTED" ∧
      (route_order st symbol side quantity price exchange segment is_exit now).1.reason
        = "broker_error:" ++ exc ∧
      (route_order st symbol side quantity price exchange segment is_exit now).2.orders_today
        = st.orders_today) ∧
    (∀ (b : Broker) (response : PyVal), st.broker = some b →
      b { trading_symbol := normalize_symbol symbol, quantity := quantity, price := price, exchange := exchange, segment := segment, transaction_type := pyUpper side } = Except.ok response →
      (route_order st symbol side quantity price exchange segment is_exit now).1.status
        = "SENT" ∧
      (route_order st symbol side quantity price exchange segment is_exit now).2.orders_today
        = st.orders_today + 1) := by
  refine ⟨fun hb => ?_, fun b exc hb hresp => ?_, fun b response hb hresp => ?_⟩
  · rw [route_order_live_no_broker st symbol side quantity price exchange segment
      is_exit now hmode hday hdup hguard hb]
    exact ⟨rfl, rfl, rfl⟩
  · rw [route_order_live_broker_error st symbol side quantity price exchange segment
      is_exit now b exc hmode hday hdup hguard hb hresp]
    exact ⟨rfl, rfl, rfl⟩
  · rw [route_order_live_broker_ok st symbol side quantity price exchange segment
      is_exit now b response hmode hday hdup hguard hb hresp]
    exact ⟨rfl, rfl⟩

/-- C3: with the kill switch enabled, `pre_order_guard` rejects every entry
with `kill_switch_enabled` in every mode and at every daily count, and
allows every exit in live mode with the market-hours check disabled. -/
theorem kill_switch_guard (cfg : RiskConfig) (mode : String) (orders_today : ℤ)
    (now_utc : ℚ) (hk : cfg.kill_switch_enabled = true) :
    pre_order_guard cfg mode orders_today false now_utc
      = (false, "kill_switch_enabled") ∧
    (cfg.market_hours_only = false →
      pre_order_guard cfg "live" orders_today true now_utc = (true, "ok")) := by
  refine ⟨?_, fun hm => ?_⟩
  · simp [pre_order_guard, hk]
  · simp [pre_order_guard, hk, hm]

/-- C3 witness: concrete kill-switch config evaluated on both guard calls. -/
theorem kill_switch_guard_witness :
    ({ kill_switch_enabled := true, market_hours_only := false } : RiskConfig).kill_switch_enabled = true ∧
    (pre_order_guard { kill_switch_enabled := true, market_hours_only := false } "paper" 5 false 0
        = (false, "kill_switch_enabled") ∧
      (({ kill_switch_enabled := true, market_hours_only := false } : RiskConfig).market_hours_only = false →
        pre_order_guard { kill_switch_enabled := true, market_hours_only := false } "live" 5 true 0
          = (true, "ok"))) :=
  ⟨rfl, kill_switch_guard { kill_switch_enabled := true, market_hours_only := false } "paper" 5 0 rfl⟩

/-- C4 counterexample: with `max_orders_per_day = 0` the first entry of the
day (the (N+1)-th for N = 0) is allowed, because the code floors the limit
at `max(1, N)`; the claim as stated would reject it. -/
theorem max_orders_guard_counterexample :
    pre_order_guard { market_hours_only := false, max_orders_per_day := 0 } "live" 0 false 0
      = (true, "ok") ∧
    pre_order_guard { market_hours_only := false, max_orders_per_day := 0 } "live" 0 false 0
      ≠ (false, "max_orders_per_day_reached") := by
  constructor <;> decide

/-- C4 (amended to `N ≥ 1`): in live mode with kill switch off and market
hours disabled, once `orders_today` has reached a limit `N ≥ 1` every
further entry is rejected with `max_orders_per_day_reached`, and no exit is
ever rejected with that reason. -/
theorem max_orders_guard_amended :
    (∀ (cfg : RiskConfig) (orders_today : ℤ) (now_utc : ℚ),
        cfg.kill_switch_enabled = false → cfg.market_hours_only = false →
        1 ≤ cfg.max_orders_per_day → cfg.max_orders_per_day ≤ orders_today →
        pre_order_guard cfg "live" orders_today false now_utc
          = (false, "max_orders_per_day_reached")) ∧
    (∀ (cfg : RiskConfig) (mode : String) (orders_today : ℤ) (now_utc : ℚ),
        (pre_order_guard cfg mode orders_today true now_utc).2
          ≠ "max_orders_per_day_reached") := by
  constructor
  · intro cfg orders_today now_utc hk hm h1 hN
    have hmax : max 1 cfg.max_orders_per_day = cfg.max_orders_per_day :=
      max_eq_right h1
    simp [pre_order_guard, hk, hm, hmax, ge_iff_le, hN]
  · intro cfg mode orders_today now_utc
    unfold pre_order_guard
    split
    · simp
    · split
      · simp
      · split
        · simp
        · split
          · simp_all
          · simp

/-- C4 witness: the spec's concrete scenario, `max_orders_per_day = 2` and
`orders_today = 2`. -/
theorem max_orders_guard_amended_witness :
    (1 : ℤ) ≤ 2 ∧
    pre_order_guard { market_hours_only := false, max_orders_per_day := 2 } "live" 2 false 0
      = (false, "max_orders_per_day_reached") :=
  ⟨by decide, max_orders_guard_amended.1
    { market_hours_only := false, max_orders_per_day := 2 } 2 0 rfl rfl
    (by decide) (by decide)⟩

/-- C9: both exit checks return `(false, "NONE")` for every non-positive
entry price, so the percentage-move division is always guarded. -/
theorem check_exit_zero_entry_guard (cfg : RiskConfig) (entry_price current_price : ℚ)
    (h : entry_price ≤ 0) :
    check_exit cfg entry_price current_price = (false, "NONE") ∧
    check_exit_short cfg entry_price current_price = (false, "NONE") := by
  constructor
  · simp [check_exit, if_pos h]
  · simp [check_exit_short, if_pos h]

/-- C9 witness: entry price 0 with the default config. -/
theorem check_exit_zero_entry_guard_witness :
    (0 : ℚ) ≤ 0 ∧
    (check_exit defaultRiskConfig 0 5 = (false, "NONE") ∧
     check_exit_short defaultRiskConfig 0 5 = (false, "NONE")) :=
  ⟨le_refl 0, check_exit_zero_entry_guard defaultRiskConfig 0 5 (le_refl 0)⟩

lemma find?_map_set (kvs : List (String × PyVal)) (k k' : String) (v : PyVal)
    (h : k ≠ k') :
    List.find? (fun p => p.1 == k) (kvs.map (fun p => if p.1 == k' then (k', v) else p))
      = List.find? (fun p => p.1 == k) kvs := by
  induction kvs with
  | nil => rfl
  | cons a t ih =>
      by_cases ha : (a.1 == k') = true
      · have ha1 : a.1 = k' := by simpa using ha
        simpa [ha1, Ne.symm h, -List.find?_map] using ih
      · have hana : a.1 ≠ k' := by simpa using ha
        by_cases hk : (a.1 == k) = true
        · have hax : a.1 = k := by simpa using hk
          simp [hax, h, Ne.symm h]
        · have hank : a.1 ≠ k := by simpa using hk
          simpa [hana, hank, -List.find?_map] using ih

lemma find?_append_single_miss (kvs : List (String × PyVal)) (k k' : String)
    (v : PyVal) (h : k ≠ k') :
    List.find? (fun p => p.1 == k) (kvs ++ [(k', v)])
      = List.find? (fun p => p.1 == k) kvs := by
  induction kvs with
  | nil => simp [Ne.symm h]
  | cons a t ih =>
      by_cases hk : (a.1 == k) = true
      · have hax : a.1 = k := by simpa using hk
        simp [hax]
      · have hank : a.1 ≠ k := by simpa using hk
        simp [hank, ih]

lemma dictGet_dictSet_ne (kvs : List (String × PyVal)) (k k' : String)
    (v : PyVal) (h : k ≠ k') :
    dictGet (dictSet kvs k' v) k = dictGet kvs k := by
  unfold dictSet
  split
  · unfold dictGet
    rw [find?_map_set kvs k k' v h]
  · unfold dictGet
    rw [find?_append_single_miss kvs k k' v h]

/-- C8: `save_state` followed by `load_state` reproduces the stored
document; its `cash`, `realized_pnl` and `positions` entries are exactly
those of the saved state (`save_state` only stamps `saved_at`). -/
theorem session_state_round_trip (store : SessionStore)
    (s : List (String × PyVal)) (saved_at : PyVal) :
    ∃ doc, load_state (save_state store s saved_at).2 = some doc ∧
      dictGet doc "cash" = dictGet s "cash" ∧
      dictGet doc "realized_pnl" = dictGet s "realized_pnl" ∧
      dictGet doc "positions" = dictGet s "positions" :=
  ⟨dictSet s "saved_at" saved_at, rfl,
    dictGet_dictSet_ne s "cash" "saved_at" saved_at (by decide),
    dictGet_dictSet_ne s "realized_pnl" "saved_at" saved_at (by decide),
    dictGet_dictSet_ne s "positions" "saved_at" saved_at (by decide)⟩

lemma pyTrunc_eq_floor (q : ℚ) (h : 0 ≤ q) : pyTrunc q = ⌊q⌋ := if_pos h

/-- Value asserted by the specification for the sizer, written from the
spec's words for comparison with `calculate_quantity`: the minimum of the
three integer-floored bounds risk budget ÷ (price × stop-loss distance),
max-position budget ÷ price, and cash ÷ price. -/
def spec_min_floored_bounds (cash price risk_per_trade_pct stop_loss_pct
    max_position_pct capital_base : ℚ) : ℤ :=
  min ⌊capital_base * risk_per_trade_pct / (price * stop_loss_pct)⌋
    (min ⌊capital_base * max_position_pct / price⌋ ⌊cash / price⌋)

/-- C7 counterexample: with a negative capital base the sizer clamps to 0
while the minimum of the three floored bounds is negative, so the return
value is not that minimum. -/
theorem sizer_bounds_counterexample :
    calculate_quantity 1 1 1 1 1 (-1) = 0 ∧
    spec_min_floored_bounds 1 1 1 1 1 (-1) = -1 ∧
    calculate_quantity 1 1 1 1 1 (-1) ≠ spec_min_floored_bounds 1 1 1 1 1 (-1) := by
  refine ⟨?_, ?_, ?_⟩
  · norm_num [calculate_quantity, pyTrunc, max_def, min_def, Int.ceil_neg,
      Int.floor_one]
  · norm_num [spec_min_floored_bounds, min_def]
  · norm_num [calculate_quantity, spec_min_floored_bounds, pyTrunc, max_def,
      min_def, Int.ceil_neg, Int.floor_one]

/-- C7 (amended): the sizer always returns `max 0` of the minimum of the
three bounds truncated toward zero, hence it is never negative and is 0
whenever price ≤ 0 or cash ≤ 0; for a nonnegative capital base (where all
three bounds are nonnegative and truncation is flooring) it equals the
clamped minimum of the three integer-floored, epsilon-floored bounds. -/
theorem sizer_bounds_amended :
    (∀ cash price r s m cap : ℚ, 0 ≤ calculate_quantity cash price r s m cap) ∧
    (∀ cash price r s m cap : ℚ, price ≤ 0 ∨ cash ≤ 0 →
        calculate_quantity cash price r s m cap = 0) ∧
    (∀ cash price r s m cap : ℚ, 0 < price → 0 < cash → 0 ≤ cap →
        calculate_quantity cash price r s m cap =
          max 0 (min ⌊cap * max r (1 / 1000) / (price * max s (1 / 1000))⌋
            (min ⌊cap * max m (1 / 100) / price⌋ ⌊cash / price⌋))) := by
  refine ⟨?_, ?_, ?_⟩
  · intro cash price r s m cap
    by_cases hps : price ≤ 0 ∨ cash ≤ 0
    · simp [calculate_quantity, if_pos hps]
    · simp only [calculate_quantity, if_neg hps]
      exact le_max_left 0 _
  · intro cash price r s m cap hps
    simp [calculate_quantity, if_pos hps]
  · intro cash price r s m cap hp hc hcap
    have hps : ¬ (price ≤ 0 ∨ cash ≤ 0) := by
      push_neg
      exact ⟨hp, hc⟩
    have hstop : (0 : ℚ) < max s (1 / 1000) :=
      lt_of_lt_of_le (by norm_num) (le_max_right _ _)
    have hrisk : (0 : ℚ) ≤ cap * max r (1 / 1000) :=
      mul_nonneg hcap (le_of_lt (lt_of_lt_of_le (by norm_num) (le_max_right _ _)))
    have halloc : (0 : ℚ) ≤ cap * max m (1 / 100) :=
      mul_nonneg hcap (le_of_lt (lt_of_lt_of_le (by norm_num) (le_max_right _ _)))
    have h1 : (0 : ℚ) ≤ cap * max r (1 / 1000) / (price * max s (1 / 1000)) :=
      div_nonneg hrisk (le_of_lt (mul_pos hp hstop))
    have h2 : (0 : ℚ) ≤ cap * max m (1 / 100) / price :=
      div_nonneg halloc (le_of_lt hp)
    have h3 : (0 : ℚ) ≤ cash / price := div_nonneg (le_of_lt hc) (le_of_lt hp)
    simp only [calculate_quantity, if_neg hps]
    rw [pyTrunc_eq_floor _ h1, pyTrunc_eq_floor _ h2, pyTrunc_eq_floor _ h3]

/-- C7 witness: the floored-bounds form evaluated at the spec's scenario
inputs. -/
theorem sizer_bounds_amended_witness :
    (0 : ℚ) < 100 ∧ (0 : ℚ) < 100000 ∧ (0 : ℚ) ≤ 100000 ∧
    calculate_quantity 100000 100 (1 / 100) (2 / 100) (1 / 10) 100000
      = max 0 (min ⌊(100000 : ℚ) * max (1 / 100) (1 / 1000) / (100 * max (2 / 100) (1 / 1000))⌋
          (min ⌊(100000 : ℚ) * max (1 / 10) (1 / 100) / 100⌋ ⌊(100000 : ℚ) / 100⌋)) :=
  ⟨by norm_num, by norm_num, by norm_num,
    sizer_bounds_amended.2.2 100000 100 (1 / 100) (2 / 100) (1 / 10) 100000
      (by norm_num) (by norm_num) (by norm_num)⟩

lemma route_order_paper (st : RouterState) (symbol side : String)
    (quantity : ℤ) (price : ℚ) (exchange segment : String) (is_exit : Bool)
    (now : ℚ) (hmode : st.mode = "paper") (hday : st.orders_day = utc_date now)
    (hdup : (is_duplicate st (dedupe_key symbol (pyUpper side) is_exit) now).1 = false)
    (hguard : ∀ cfg, st.risk_engine = some cfg →
      (pre_order_guard cfg st.mode (st.orders_today : ℤ) is_exit now).1 = true) :
    route_order st symbol side quantity price exchange segment is_exit now
      = finish { st with last_order_at := setTime st.last_order_at (dedupe_key symbol (pyUpper side) is_exit) now, orders_today := st.orders_today + 1 }
          { status := "FILLED", mode := "paper", symbol := symbol,
            side := pyUpper side, quantity := quantity, price := round2 price,
            broker_order_id := "" }
          is_exit PyVal.none now := by
  unfold route_order
  dsimp only
  rw [is_duplicate_of_false st _ now hdup]
  dsimp only
  rw [if_neg (fun hcon => Bool.false_ne_true hcon)]
  rw [apply_risk_guard_allows { st with last_order_at := setTime st.last_order_at (dedupe_key symbol (pyUpper side) is_exit) now } (pyUpper side) is_exit now hday hguard]
  dsimp only
  rw [hmode]
  rw [if_pos rfl]

/-- C2 counterexample: at the spec's scenario inputs the sizer returns 100
(the max-position bound binds), not the claimed 50. -/
theorem sizing_scenario_counterexample :
    calculate_quantity 100000 100 (1 / 100) (2 / 100) (1 / 10) 100000 ≠ 50 := by
  norm_num [calculate_quantity, pyTrunc, max_def, min_def]

/-- C2 (amended): the scenario sizes to 100 shares, and routing that order
in paper mode returns a FILLED outcome with quantity 100 at price 100. -/
theorem sizing_scenario_amended :
    calculate_quantity 100000 100 (1 / 100) (2 / 100) (1 / 10) 100000 = 100 ∧
    (route_order (initRouter "paper" 0) "SYM" "BUY" 100 100 "NSE" "CASH" false 0).1.status
      = "FILLED" ∧
    (route_order (initRouter "paper" 0) "SYM" "BUY" 100 100 "NSE" "CASH" false 0).1.quantity
      = 100 ∧
    (route_order (initRouter "paper" 0) "SYM" "BUY" 100 100 "NSE" "CASH" false 0).1.price
      = 100 := by
  have hred := route_order_paper (initRouter "paper" 0) "SYM" "BUY" 100 100
    "NSE" "CASH" false 0 rfl rfl rfl (fun _cfg h => nomatch h)
  refine ⟨?_, ?_, ?_, ?_⟩
  · norm_num [calculate_quantity, pyTrunc, max_def, min_def]
  · rw [hred]
    rfl
  · rw [hred]
    rfl
  · rw [hred]
    show round2 100 = 100
    norm_num [round2, roundHalfEven]

/-- C5 witness: fresh paper router, identical calls at t = 0 s and 10 s
(within the 20 s window) and a third at 21 s (outside it). -/
theorem dedup_window_behavior_witness :
    lookupTime (initRouter "paper" 0).last_order_at (dedupe_key "SYM" (pyUpper "buy") false)
      = Option.none ∧
    ((10 : ℚ) - 0 ≤ 20) ∧ ¬ ((21 : ℚ) - 0 ≤ 20) ∧
    ((route_order (route_order (initRouter "paper" 0) "SYM" "buy" 1 100 "NSE" "CASH" false 0).2
        "SYM" "buy" 1 100 "NSE" "CASH" false 10).1.status = "SKIPPED" ∧
     (route_order (route_order (initRouter "paper" 0) "SYM" "buy" 1 100 "NSE" "CASH" false 0).2
        "SYM" "buy" 1 100 "NSE" "CASH" false 10).1.reason = "duplicate_window" ∧
     (route_order (route_order (initRouter "paper" 0) "SYM" "buy" 1 100 "NSE" "CASH" false 0).2
        "SYM" "buy" 1 100 "NSE" "CASH" false 10).2.orders_today
       = (route_order (initRouter "paper" 0) "SYM" "buy" 1 100 "NSE" "CASH" false 0).2.orders_today ∧
     (is_duplicate
        (route_order (route_order (initRouter "paper" 0) "SYM" "buy" 1 100 "NSE" "CASH" false 0).2
          "SYM" "buy" 1 100 "NSE" "CASH" false 10).2
        (dedupe_key "SYM" (pyUpper "buy") false) 21).1 = false ∧
     (route_order
        (route_order (route_order (initRouter "paper" 0) "SYM" "buy" 1 100 "NSE" "CASH" false 0).2
          "SYM" "buy" 1 100 "NSE" "CASH" false 10).2
        "SYM" "buy" 1 100 "NSE" "CASH" false 21).1.status ≠ "SKIPPED") :=
  ⟨rfl, by norm_num, by norm_num,
    dedup_window_behavior (initRouter "paper" 0) "SYM" "buy" 1 1 1 100 100 100
      "NSE" "CASH" false 0 10 21 rfl (by norm_num) (by norm_num)⟩

/-- Test fixture: live-mode router with no broker attached. -/
def liveNoBroker : RouterState :=
  { mode := "live", broker := Option.none, risk_engine := Option.none,
    journal := [], last_order_at := [], orders_today := 0,
    orders_day := utc_date 0 }

/-- Test fixture: broker stub whose place-order call raises. -/
def brokerBoom : Broker := fun _ => Except.error "boom"

/-- Test fixture: broker stub returning a response carrying an order id. -/
def brokerFine : Broker :=
  fun _ => Except.ok (PyVal.dict [("groww_order_id", PyVal.str "gid-1")])

/-- Test fixture: live-mode router whose broker raises. -/
def liveBoomBroker : RouterState := { liveNoBroker with broker := some brokerBoom }

/-- Test fixture: live-mode router whose broker succeeds. -/
def liveFineBroker : RouterState := { liveNoBroker with broker := some brokerFine }

/-- C6 witness: the three broker situations evaluated on concrete live
routers at t = 0. -/
theorem live_mode_broker_boundary_witness :
    ((route_order liveNoBroker "TCS.NS" "buy" 1 100 "NSE" "CASH" false 0).1.status
        = "REJECTED" ∧
     (route_order liveNoBroker "TCS.NS" "buy" 1 100 "NSE" "CASH" false 0).1.reason
        = "broker_not_configured" ∧
     (route_order liveNoBroker "TCS.NS" "buy" 1 100 "NSE" "CASH" false 0).2.orders_today
        = liveNoBroker.orders_today) ∧
    ((route_order liveBoomBroker "TCS.NS" "buy" 1 100 "NSE" "CASH" false 0).1.status
        = "REJECTED" ∧
     (route_order liveBoomBroker "TCS.NS" "buy" 1 100 "NSE" "CASH" false 0).1.reason
        = "broker_error:" ++ "boom" ∧
     (route_order liveBoomBroker "TCS.NS" "buy" 1 100 "NSE" "CASH" false 0).2.orders_today
        = liveBoomBroker.orders_today) ∧
    ((route_order liveFineBroker "TCS.NS" "buy" 1 100 "NSE" "CASH" false 0).1.status
        = "SENT" ∧
     (route_order liveFineBroker "TCS.NS" "buy" 1 100 "NSE" "CASH" false 0).2.orders_today
        = liveFineBroker.orders_today + 1) :=
  ⟨(live_mode_broker_boundary liveNoBroker "TCS.NS" "buy" 1 100 "NSE" "CASH"
      false 0 rfl rfl rfl (fun _cfg h => nomatch h)).1 rfl,
   (live_mode_broker_boundary liveBoomBroker "TCS.NS" "buy" 1 100 "NSE" "CASH"
      false 0 rfl rfl rfl (fun _cfg h => nomatch h)).2.1 brokerBoom "boom" rfl rfl,
   (live_mode_broker_boundary liveFineBroker "TCS.NS" "buy" 1 100 "NSE" "CASH"
      false 0 rfl rfl rfl (fun _cfg h => nomatch h)).2.2 brokerFine
      (PyVal.dict [("groww_order_id", PyVal.str "gid-1")]) rfl rfl⟩

end TradeEngine
